import Mathlib

/-!
Verification development for the `IGamingAgentPlugin` header of
Thirsty's Game Studio (src/cpp/include/IGamingAgentPlugin.h).

The header declares a plugin interface: data structs (`CommunityInsight`,
`FeatureProposal`, `GuardrailResult`, `AgentPipelineResult`), the
`MonetizationGuardrail` enum, pure-virtual pipeline operations
(`fetchInsights`, `generateProposals`, `validateProposals`, `runPipeline`)
and an RAII `PluginHandle`.  The structs, the enum, the default member
initializers, the default argument of `fetchInsights` and the bodies of
`PluginHandle` are translated here directly from the source.  The bodies
of the pipeline operations are absent from the repository (every method is
pure virtual), so those operations are modelled from the specification,
each marked `Modelled from the spec:` in its doc comment.

Modelling conventions: C++ `float` is modelled as `Rat`,
`std::chrono::system_clock::time_point` as `Nat` (ticks since epoch),
`std::vector` as `List`, `std::map<std::string, int>` as
`List (String × Int)` (association list), and
`std::map<size_t, std::vector<GuardrailResult>>` as an association list
`List (Nat × List GuardrailResult)` with keys in increasing order.
-/

namespace ThirstysGameStudio
namespace Agent

/-- `CommunityInsight` struct from the source header (lines 27–37),
with the C++ default member initializers (`sentiment = 0.0f`,
`priority = 0.5f`) and value-initialized defaults for the rest. -/
structure CommunityInsight where
  source : String := ""
  content : String := ""
  sentiment : Rat := 0
  topics : List String := []
  author : String := ""
  timestamp : Nat := 0
  engagement : List (String × Int) := []
  category : String := ""
  priority : Rat := 1 / 2
deriving DecidableEq, Repr

/-- `FeatureProposal` struct from the source header (lines 42–53),
with the C++ default member initializers (`priority = 0.5f`,
`f2pCompliant = true`) and value-initialized defaults for the rest. -/
structure FeatureProposal where
  title : String := ""
  description : String := ""
  sourceInsights : List String := []
  category : String := ""
  monetizationType : String := ""
  priority : Rat := 1 / 2
  f2pCompliant : Bool := true
  guardrailNotes : List String := []
  comparativeNotes : List String := []
  createdAt : Nat := 0
deriving DecidableEq, Repr

/-- A `FeatureProposal` as produced by the C++ default constructor:
every field takes its default member initializer (line 42–53 of the
header), in particular `f2pCompliant = true` (line 49). -/
def defaultFeatureProposal : FeatureProposal := {}

/-- `MonetizationGuardrail` enum from the source header (lines 58–66):
the seven fixed F2P-compliance guardrail rules, in declaration order. -/
inductive MonetizationGuardrail where
  | NoPayToWin
  | CosmeticOnly
  | NoGameplayAdvantage
  | FairProgression
  | TransparentOdds
  | NoLootBoxes
  | AccessibleContent
deriving DecidableEq, Repr

/-- `GuardrailResult` struct from the source header (lines 71–76). -/
structure GuardrailResult where
  passed : Bool := false
  guardrail : MonetizationGuardrail
  message : String := ""
  suggestions : List String := []
deriving DecidableEq, Repr

/-- `AgentPipelineResult` struct from the source header (lines 81–91). -/
structure AgentPipelineResult where
  success : Bool := false
  timestamp : Nat := 0
  totalInsights : Int := 0
  totalProposals : Int := 0
  compliantProposals : Int := 0
  executionTimeSeconds : Rat := 0
  insights : List CommunityInsight := []
  proposals : List FeatureProposal := []
  errorMessage : String := ""
deriving DecidableEq, Repr

/-- The seven guardrail rules in the stable evaluation order of the spec
(§3), which is the declaration order of the `MonetizationGuardrail` enum
in the source header. -/
def guardrailOrder : List MonetizationGuardrail :=
  [MonetizationGuardrail.NoPayToWin,
   MonetizationGuardrail.CosmeticOnly,
   MonetizationGuardrail.NoGameplayAdvantage,
   MonetizationGuardrail.FairProgression,
   MonetizationGuardrail.TransparentOdds,
   MonetizationGuardrail.NoLootBoxes,
   MonetizationGuardrail.AccessibleContent]

/-- Modelled from the spec: the guardrail predicates themselves are not in
the repository (the header only declares `validateProposals`).  Per §4.3
each rule is "a pure predicate over proposal fields", the spec's worked
example being that `no-pay-to-win` fails when `monetizationType` implies
gameplay power tied to payment.  The concrete heuristics below read only
the `monetizationType` field and never the mutable validation outputs
(`f2pCompliant`, `guardrailNotes`). -/
def rulePasses : MonetizationGuardrail → FeatureProposal → Bool
  | MonetizationGuardrail.NoPayToWin, p => !(p.monetizationType == "pay-to-win")
  | MonetizationGuardrail.CosmeticOnly, p =>
      !(p.monetizationType == "pay-to-win") && !(p.monetizationType == "loot-box")
  | MonetizationGuardrail.NoGameplayAdvantage, p => !(p.monetizationType == "pay-to-win")
  | MonetizationGuardrail.FairProgression, p => !(p.monetizationType == "progression-gate")
  | MonetizationGuardrail.TransparentOdds, p => !(p.monetizationType == "loot-box")
  | MonetizationGuardrail.NoLootBoxes, p => !(p.monetizationType == "loot-box")
  | MonetizationGuardrail.AccessibleContent, p => !(p.monetizationType == "paywall")

/-- Modelled from the spec: human-readable failure message of each rule
(§3 `GuardrailVerdict.message`; the rule bodies are absent from the
repository). -/
def ruleMessage : MonetizationGuardrail → String
  | MonetizationGuardrail.NoPayToWin => "monetization grants gameplay power tied to payment"
  | MonetizationGuardrail.CosmeticOnly => "paid content is not purely cosmetic"
  | MonetizationGuardrail.NoGameplayAdvantage => "paid content confers a gameplay advantage"
  | MonetizationGuardrail.FairProgression => "progression is gated behind payment"
  | MonetizationGuardrail.TransparentOdds => "randomized rewards lack disclosed odds"
  | MonetizationGuardrail.NoLootBoxes => "feature relies on loot boxes"
  | MonetizationGuardrail.AccessibleContent => "content is locked behind a paywall"

/-- Modelled from the spec: the actionable remediation suggestion each
rule must populate on failure (§4.3; the rule bodies are absent from the
repository). -/
def ruleSuggestion : MonetizationGuardrail → String
  | MonetizationGuardrail.NoPayToWin => "restrict paid items to cosmetics"
  | MonetizationGuardrail.CosmeticOnly => "rework the offering as cosmetic-only"
  | MonetizationGuardrail.NoGameplayAdvantage => "decouple the advantage from payment"
  | MonetizationGuardrail.FairProgression => "make progression earnable through play"
  | MonetizationGuardrail.TransparentOdds => "publish drop rates for all rewards"
  | MonetizationGuardrail.NoLootBoxes => "replace loot boxes with direct purchase"
  | MonetizationGuardrail.AccessibleContent => "offer a free path to the content"

/-- Modelled from the spec: evaluation of one rule against one proposal,
producing the `GuardrailResult` struct of the header (§3
`GuardrailVerdict`; the engine body is absent from the repository).  The
verdict is a pure function of the rule and the proposal alone. -/
def evalRule (g : MonetizationGuardrail) (p : FeatureProposal) : GuardrailResult :=
  if rulePasses g p then
    { passed := true, guardrail := g, message := "", suggestions := [] }
  else
    { passed := false, guardrail := g, message := ruleMessage g,
      suggestions := [ruleSuggestion g] }

/-- Modelled from the spec: the verdict sequence for one proposal — all
seven fixed rules, in the stable order, no short-circuiting (§4.3; the
engine body is absent from the repository). -/
def checkProposal (p : FeatureProposal) : List GuardrailResult :=
  guardrailOrder.map (fun g => evalRule g p)

/-- Modelled from the spec: the guardrail engine's side effect on a
proposal (§4.3; the engine body is absent from the repository):
`f2pCompliant` is set to the logical AND of all seven verdicts, and
`guardrailNotes` is cleared and then extended with every failing rule's
message in rule-evaluation order (replace-not-append, as §4.3's
idempotence requirement demands). -/
def applyVerdicts (p : FeatureProposal) : FeatureProposal :=
  { p with
    f2pCompliant := (checkProposal p).all (fun r => r.passed),
    guardrailNotes :=
      ((checkProposal p).filter (fun r => !r.passed)).map (fun r => r.message) }

/-- Modelled from the spec: the index → verdict-sequence mapping returned
by `validateProposals` (header line 182: `std::map<size_t,
std::vector<GuardrailResult>>`), built with keys `n, n+1, …` for the
listed proposals. -/
def indexedVerdicts : Nat → List FeatureProposal → List (Nat × List GuardrailResult)
  | _, [] => []
  | n, p :: rest => (n, checkProposal p) :: indexedVerdicts (n + 1) rest

/-- Outcome of one `validateProposals` call: the returned mapping and the
proposals after the engine's side effect. -/
structure ValidationOutcome where
  verdicts : List (Nat × List GuardrailResult)
  proposals : List FeatureProposal
deriving DecidableEq, Repr

/-- Modelled from the spec: `validateProposals` (header lines 182–183; the
body is absent from the repository).  Per §4.3 it returns one ordered
verdict sequence per proposal index and, as a side effect, rewrites each
proposal's `f2pCompliant` flag and `guardrailNotes`; the side effect is
embodied as the returned `proposals` list. -/
def validateProposals (ps : List FeatureProposal) : ValidationOutcome :=
  { verdicts := indexedVerdicts 0 ps
    proposals := ps.map applyVerdicts }

/-- Modelled from the spec: the fixed monetization taxonomy of §4.2
(cosmetic, battle-pass, none); the synthesizer body is absent from the
repository. -/
def monetizationTaxonomy : List String := ["cosmetic", "battle-pass", "none"]

/-- Modelled from the spec: the deterministic, non-randomized assignment
of `monetizationType` from the cluster category (§4.2; the synthesizer
body is absent from the repository). -/
def monetizationFor (category : String) : String :=
  if category = "monetization" then "battle-pass"
  else if category = "cosmetics" then "cosmetic"
  else "none"

/-- Modelled from the spec: the dominant topic of an insight, used in the
cluster key of §4.2 (the synthesizer body is absent from the repository;
the first listed topic is taken as dominant, the empty string when the
insight has no topics). -/
def dominantTopic (i : CommunityInsight) : String := i.topics.headD ""

/-- Modelled from the spec: insights are clustered by
`(category, dominant topic)` (§4.2). -/
def clusterKey (i : CommunityInsight) : String × String := (i.category, dominantTopic i)

/-- Modelled from the spec: the distinct cluster keys of an insight
sequence, in first-occurrence order (a deterministic order, as §4.2's
reproducibility requires). -/
def clusterKeys (insights : List CommunityInsight) : List (String × String) :=
  insights.foldl (fun acc i => if clusterKey i ∈ acc then acc else acc ++ [clusterKey i]) []

/-- Total engagement count of one insight: the sum of its
engagement-metric counts (`std::map<std::string, int>` in the header). -/
def insightEngagement (i : CommunityInsight) : Int :=
  (i.engagement.map (fun e => e.2)).sum

/-- Modelled from the spec: the aggregate engagement of a cluster,
compared against the activation threshold in §4.2. -/
def clusterEngagement (members : List CommunityInsight) : Int :=
  (members.map insightEngagement).sum

/-- Modelled from the spec: the identifier recorded in a proposal's
`sourceInsights` list (§4.2; the header's `CommunityInsight` has no
dedicated id field, so the `source` field serves as the identifier). -/
def insightId (i : CommunityInsight) : String := i.source

/-- Modelled from the spec: ordering of a cluster's members for the
`sourceInsights` list — descending priority, ties broken by earliest
timestamp (§4.2). -/
def insightBefore (a b : CommunityInsight) : Bool :=
  decide (b.priority < a.priority)
    || (decide (a.priority = b.priority) && decide (a.timestamp ≤ b.timestamp))

/-- Stable insertion step for sorting cluster members. -/
def insertLe (le : CommunityInsight → CommunityInsight → Bool) (x : CommunityInsight) :
    List CommunityInsight → List CommunityInsight
  | [] => [x]
  | y :: ys => if le x y then x :: y :: ys else y :: insertLe le x ys

/-- Stable insertion sort for cluster members. -/
def sortLe (le : CommunityInsight → CommunityInsight → Bool)
    (xs : List CommunityInsight) : List CommunityInsight :=
  xs.foldr (insertLe le) []

/-- Modelled from the spec: the proposal emitted for one cluster (§4.2;
the synthesizer body is absent from the repository).  `priority` is the
average over members of priority and sentiment magnitude, `sourceInsights`
lists member identifiers in descending-priority order (ties by earliest
timestamp), `monetizationType` comes from the fixed taxonomy by category,
and `f2pCompliant` starts `true` (§4.2, header line 49). -/
def mkProposal (k : String × String) (members : List CommunityInsight) : FeatureProposal :=
  { title := "Community feature: " ++ k.2
    description := "Synthesized from community feedback in category " ++ k.1
    sourceInsights := (sortLe insightBefore members).map insightId
    category := k.1
    monetizationType := monetizationFor k.1
    priority := ((members.map (fun i => i.priority + |i.sentiment|)).sum)
      / (2 * (members.length : Rat))
    f2pCompliant := true
    guardrailNotes := []
    comparativeNotes := []
    createdAt := ((members.map (fun i => i.timestamp)).min?).getD 0 }

/-- Modelled from the spec: `generateProposals` (header lines 174–175; the
body is absent from the repository).  Per §4.2 it clusters insights by
`(category, dominant topic)` and emits one proposal per cluster whose
aggregate engagement exceeds the configurable activation threshold
(passed here as `threshold`).  The operation is a total function into a
proposal list: empty input yields the empty list, not an error. -/
def generateProposals (threshold : Int) (insights : List CommunityInsight) :
    List FeatureProposal :=
  (clusterKeys insights).filterMap (fun k =>
    let members := insights.filter (fun i => decide (clusterKey i = k))
    if clusterEngagement members > threshold then some (mkProposal k members) else none)

/-- Error kinds of the ingestion boundary (§7 of the spec). -/
inductive SourceError where
  | authenticationError
  | sourceUnavailable
  | rateLimited
deriving DecidableEq, Repr

/-- Modelled from the spec: the outcome offered by one configured external
source during a pipeline run — either its raw items, already mapped to
`CommunityInsight`, or the error it failed with (§4.1; the network clients
are absent from the repository and are external collaborators per §1). -/
structure SourceFetch where
  name : String := ""
  result : Except SourceError (List CommunityInsight) := Except.ok []
deriving Repr

/-- Whether a configured source failed during the run. -/
def sourceFailed (s : SourceFetch) : Bool :=
  match s.result with
  | Except.error _ => true
  | Except.ok _ => false

/-- Modelled from the spec: the items ingested from one source — up to
`limit` items on success, nothing on failure (§4.1: a failing source is
excluded from the result set and never aborts the others). -/
def fetchFromSource (limit : Nat) (s : SourceFetch) : List CommunityInsight :=
  match s.result with
  | Except.ok items => items.take limit
  | Except.error _ => []

/-- Modelled from the spec: `fetchInsights` (header line 159; the body is
absent from the repository).  It returns the union, in source order, of
the successfully ingested insights, at most `limit` per source; the
default argument `limit = 50` is translated directly from the header's
`int limit = 50`. -/
def fetchInsights (srcs : List SourceFetch) (limit : Int := 50) : List CommunityInsight :=
  (srcs.map (fetchFromSource limit.toNat)).flatten

/-- Modelled from the spec: `runPipeline` (header line 195; the body is
absent from the repository).  Per §4.4 it sequences ingest → synthesize →
validate → report.  Per-source failures are warnings, not fatal (§4.1);
the unrecoverable failure §4.4 and §8 describe — every configured source
failed — yields `success = false`, a descriptive `errorMessage` and the
partial (empty) lists.  The result is always a structurally valid
`AgentPipelineResult`, never an absent value. -/
def runPipeline (threshold : Int) (now : Nat) (duration : Rat)
    (srcs : List SourceFetch) : AgentPipelineResult :=
  let insights := fetchInsights srcs
  if !srcs.isEmpty && srcs.all sourceFailed then
    { success := false
      timestamp := now
      totalInsights := (insights.length : Int)
      totalProposals := 0
      compliantProposals := 0
      executionTimeSeconds := duration
      insights := insights
      proposals := []
      errorMessage := "pipeline failed: all configured sources failed" }
  else
    let proposals := (validateProposals (generateProposals threshold insights)).proposals
    { success := true
      timestamp := now
      totalInsights := (insights.length : Int)
      totalProposals := (proposals.length : Int)
      compliantProposals := ((proposals.filter (fun p => p.f2pCompliant)).length : Int)
      executionTimeSeconds := duration
      insights := insights
      proposals := proposals
      errorMessage := "" }

/-- Lifecycle events observable on a plugin instance, used to state the
shutdown-before-destruction discipline of `PluginHandle`.  Instances are
identified by numbers. -/
inductive PluginEvent where
  | shutdownCall (instanceId : Nat)
  | destroyInstance (instanceId : Nat)
deriving DecidableEq, Repr

/-- Translated from the source (header line 225):
`~PluginHandle() { if (plugin_) plugin_->shutdown(); }`, followed by the
implicit destruction of the `std::unique_ptr` member, which deletes the
owned instance.  `none` models a handle whose pointer is null (after a
move). -/
def handleDestructorEvents : Option Nat → List PluginEvent
  | some i => [PluginEvent.shutdownCall i, PluginEvent.destroyInstance i]
  | none => []

/-- Translated from the source (header lines 233–236): move assignment
runs `plugin_ = std::move(other.plugin_);`.  `std::unique_ptr` move
assignment deletes the instance currently owned by the destination (if
any) and takes ownership of the other handle's instance; `shutdown` is
not called on the released instance. -/
def moveAssignEvents : Option Nat → Option Nat → List PluginEvent
  | some i, _ => [PluginEvent.destroyInstance i]
  | none, _ => []

/-- Ownership transfer of the same move assignment: the destination holds
the source's instance, the source is left empty. -/
def moveAssignOwners (_dst src : Option Nat) : Option Nat × Option Nat := (src, none)

/-- Checker for the shutdown discipline: every `destroyInstance i` in the
trace must be preceded by a `shutdownCall i`.  The accumulator carries the
instances already shut down. -/
def shutdownBeforeDestroyAux : List Nat → List PluginEvent → Bool
  | _, [] => true
  | shut, PluginEvent.shutdownCall i :: rest => shutdownBeforeDestroyAux (i :: shut) rest
  | shut, PluginEvent.destroyInstance i :: rest =>
      decide (i ∈ shut) && shutdownBeforeDestroyAux shut rest

/-- A trace satisfies the discipline when every destroyed instance was
shut down earlier in the trace. -/
def shutdownBeforeDestroy (tr : List PluginEvent) : Bool :=
  shutdownBeforeDestroyAux [] tr

/-! ### Helper lemmas -/

/-- The guardrail predicates read only the immutable proposal fields,
never the validation outputs `f2pCompliant` / `guardrailNotes`. -/
theorem rulePasses_update (g : MonetizationGuardrail) (p : FeatureProposal)
    (b : Bool) (ns : List String) :
    rulePasses g { p with f2pCompliant := b, guardrailNotes := ns } = rulePasses g p := by
  cases g <;> rfl

theorem evalRule_update (g : MonetizationGuardrail) (p : FeatureProposal)
    (b : Bool) (ns : List String) :
    evalRule g { p with f2pCompliant := b, guardrailNotes := ns } = evalRule g p := by
  unfold evalRule
  rw [rulePasses_update]

theorem checkProposal_update (p : FeatureProposal) (b : Bool) (ns : List String) :
    checkProposal { p with f2pCompliant := b, guardrailNotes := ns } = checkProposal p := by
  unfold checkProposal
  simp only [evalRule_update]

theorem checkProposal_applyVerdicts (p : FeatureProposal) :
    checkProposal (applyVerdicts p) = checkProposal p :=
  checkProposal_update p _ _

theorem applyVerdicts_idem (p : FeatureProposal) :
    applyVerdicts (applyVerdicts p) = applyVerdicts p := by
  simp only [applyVerdicts, checkProposal_update]

theorem evalRule_guardrail (g : MonetizationGuardrail) (p : FeatureProposal) :
    (evalRule g p).guardrail = g := by
  unfold evalRule
  split <;> rfl

theorem checkProposal_rules (p : FeatureProposal) :
    (checkProposal p).map (fun r => r.guardrail) = guardrailOrder := by
  unfold checkProposal
  rw [List.map_map]
  have h : ((fun r => r.guardrail) ∘ fun g => evalRule g p)
      = fun g : MonetizationGuardrail => g := by
    funext g
    exact evalRule_guardrail g p
  rw [h]
  exact List.map_id' guardrailOrder

theorem indexedVerdicts_getElem? (ps : List FeatureProposal) :
    ∀ n i : Nat, (indexedVerdicts n ps)[i]? = ps[i]?.map (fun p => (n + i, checkProposal p)) := by
  induction ps with
  | nil => intro n i; simp [indexedVerdicts]
  | cons p rest ih =>
      intro n i
      cases i with
      | zero => simp [indexedVerdicts]
      | succ j =>
          have h := ih (n + 1) j
          simp only [indexedVerdicts, List.getElem?_cons_succ, h,
            Nat.add_succ, Nat.succ_add]

theorem indexedVerdicts_length (ps : List FeatureProposal) :
    ∀ n : Nat, (indexedVerdicts n ps).length = ps.length := by
  induction ps with
  | nil => intro n; rfl
  | cons p rest ih => intro n; simp [indexedVerdicts, ih]

theorem indexedVerdicts_keys (ps : List FeatureProposal) :
    ∀ n : Nat, (indexedVerdicts n ps).map Prod.fst = List.range' n ps.length := by
  induction ps with
  | nil => intro n; rfl
  | cons p rest ih => intro n; simp [indexedVerdicts, ih, List.range'_succ]

theorem indexedVerdicts_rules (ps : List FeatureProposal) :
    ∀ n : Nat, (indexedVerdicts n ps).map (fun e => e.2.map (fun r => r.guardrail))
      = List.replicate ps.length guardrailOrder := by
  induction ps with
  | nil => intro n; rfl
  | cons p rest ih =>
      intro n
      simp [indexedVerdicts, ih, checkProposal_rules, List.replicate_succ]

theorem indexedVerdicts_map_applyVerdicts (ps : List FeatureProposal) :
    ∀ n : Nat, indexedVerdicts n (ps.map applyVerdicts) = indexedVerdicts n ps := by
  induction ps with
  | nil => intro n; rfl
  | cons p rest ih =>
      intro n
      simp [indexedVerdicts, ih, checkProposal_applyVerdicts]

/-- Every proposal the synthesizer emits is built by `mkProposal` for some
cluster. -/
theorem mem_generateProposals (t : Int) (insights : List CommunityInsight)
    (p : FeatureProposal) (hp : p ∈ generateProposals t insights) :
    ∃ k members, p = mkProposal k members := by
  unfold generateProposals at hp
  rw [List.mem_filterMap] at hp
  obtain ⟨k, _, hf⟩ := hp
  dsimp only at hf
  split at hf
  · exact ⟨k, _, (Option.some.inj hf).symm⟩
  · exact absurd hf (by simp)

theorem monetizationFor_mem (c : String) : monetizationFor c ∈ monetizationTaxonomy := by
  unfold monetizationFor monetizationTaxonomy
  split
  · simp
  · split <;> simp

/-! ### Claim theorems -/

/-- C1: for every proposal list and every index, after `validateProposals`
runs, the proposal's `f2pCompliant` flag equals the logical AND of the
`passed` fields of the seven verdicts returned for that index, and its
`guardrailNotes` are exactly the failing rules' messages in
rule-evaluation order (passing rules contribute nothing). -/
theorem validateProposals_compliance_flag_and_notes (ps : List FeatureProposal) (i : Nat) :
    ((validateProposals ps).proposals[i]?).map (fun q => (q.f2pCompliant, q.guardrailNotes))
      = ((validateProposals ps).verdicts[i]?).map (fun e =>
          (e.2.all (fun r => r.passed),
           (e.2.filter (fun r => !r.passed)).map (fun r => r.message))) := by
  simp only [validateProposals]
  rw [indexedVerdicts_getElem?]
  rw [List.getElem?_map]
  cases ps[i]? <;> simp [applyVerdicts]

/-- C2: the guardrail rules are a fixed enumeration of exactly seven
distinct rules, evaluated for every proposal in the stable order
no-pay-to-win, cosmetic-only, no-gameplay-advantage, fair-progression,
transparent-odds, no-loot-boxes, accessible-content; the verdict at each
position is the pure evaluation of that position's rule on the proposal
alone, so no rule depends on another and nothing short-circuits. -/
theorem guardrails_seven_fixed_order :
    guardrailOrder = [MonetizationGuardrail.NoPayToWin, MonetizationGuardrail.CosmeticOnly,
      MonetizationGuardrail.NoGameplayAdvantage, MonetizationGuardrail.FairProgression,
      MonetizationGuardrail.TransparentOdds, MonetizationGuardrail.NoLootBoxes,
      MonetizationGuardrail.AccessibleContent]
    ∧ guardrailOrder.length = 7
    ∧ guardrailOrder.Nodup
    ∧ (∀ g : MonetizationGuardrail, g ∈ guardrailOrder)
    ∧ (∀ (p : FeatureProposal) (i : Nat),
        (checkProposal p)[i]? = (guardrailOrder[i]?).map (fun g => evalRule g p)) := by
  refine ⟨rfl, rfl, by decide, ?_, ?_⟩
  · intro g; cases g <;> decide
  · intro p i
    simp [checkProposal, List.getElem?_map]

/-- C3: `validateProposals` is idempotent — re-running it on the
already-validated proposals returns an identical outcome (same verdict
mapping, same proposals), and each validated proposal carries exactly one
note per currently-failing rule (notes are replaced, never accumulated). -/
theorem validateProposals_idempotent (ps : List FeatureProposal) :
    validateProposals ((validateProposals ps).proposals) = validateProposals ps
    ∧ ((validateProposals ps).proposals.map (fun q => q.guardrailNotes.length))
        = ((validateProposals ps).proposals.map (fun q =>
            ((checkProposal q).filter (fun r => !r.passed)).length)) := by
  constructor
  · have hv : indexedVerdicts 0 (ps.map applyVerdicts) = indexedVerdicts 0 ps :=
      indexedVerdicts_map_applyVerdicts ps 0
    have hcomp : (applyVerdicts ∘ applyVerdicts) = applyVerdicts := by
      funext x
      exact applyVerdicts_idem x
    have hp : (ps.map applyVerdicts).map applyVerdicts = ps.map applyVerdicts := by
      rw [List.map_map, hcomp]
    simp [validateProposals, hv, hp]
  · simp only [validateProposals, List.map_map]
    congr 1
    funext p
    simp only [Function.comp_apply]
    rw [checkProposal_applyVerdicts]
    simp [applyVerdicts]

/-- C4: `runPipeline` always returns a structurally valid report: whenever
`success` is false the `errorMessage` is non-empty, and the counts agree
with the returned lists (`totalInsights`, `totalProposals`,
`compliantProposals`) uniformly in both the success and the failure case,
including the run in which every configured source fails. -/
theorem runPipeline_structured_report (t : Int) (now : Nat) (d : Rat)
    (srcs : List SourceFetch) :
    ((runPipeline t now d srcs).success = false → (runPipeline t now d srcs).errorMessage ≠ "")
    ∧ (runPipeline t now d srcs).totalInsights
        = ((runPipeline t now d srcs).insights.length : Int)
    ∧ (runPipeline t now d srcs).totalProposals
        = ((runPipeline t now d srcs).proposals.length : Int)
    ∧ (runPipeline t now d srcs).compliantProposals
        = (((runPipeline t now d srcs).proposals.filter (fun p => p.f2pCompliant)).length : Int) := by
  simp only [runPipeline]
  split
  · refine ⟨fun _ => ?_, rfl, rfl, rfl⟩
    show ("pipeline failed: all configured sources failed" : String) ≠ ""
    decide
  · exact ⟨fun h => Bool.noConfusion h, rfl, rfl, rfl⟩

/-- Witness for C4 at a concrete run in which the single configured source
fails: the report signals failure with a non-empty error message. -/
theorem runPipeline_structured_report_witness :
    (runPipeline 0 0 0
      [{ name := "reddit", result := Except.error SourceError.sourceUnavailable }]).success = false
    ∧ (runPipeline 0 0 0
        [{ name := "reddit", result := Except.error SourceError.sourceUnavailable }]).errorMessage ≠ "" :=
  ⟨by decide,
   (runPipeline_structured_report 0 0 0
      [{ name := "reddit", result := Except.error SourceError.sourceUnavailable }]).1 (by decide)⟩

/-- C5: the mapping returned by `validateProposals` has exactly one entry
per proposal index (keys `0 … n-1` in order), and every entry carries
exactly one verdict per enumerated rule — its verdicts' rules are
precisely `guardrailOrder`, hence seven verdicts, one per rule. -/
theorem validateProposals_verdict_shape (ps : List FeatureProposal) :
    (validateProposals ps).verdicts.length = ps.length
    ∧ (validateProposals ps).verdicts.map Prod.fst = List.range ps.length
    ∧ (validateProposals ps).verdicts.map (fun e => e.2.map (fun r => r.guardrail))
        = List.replicate ps.length guardrailOrder := by
  refine ⟨indexedVerdicts_length ps 0, ?_, indexedVerdicts_rules ps 0⟩
  rw [List.range_eq_range']
  exact indexedVerdicts_keys ps 0

/-- C6: `generateProposals` on the empty insight sequence returns the
empty proposal sequence (the operation is a total function into a list,
so no error is signalled). -/
theorem generateProposals_empty (t : Int) : generateProposals t [] = [] := rfl

/-- C7: `generateProposals` is deterministic — repeated calls on the same
insight sequence (timestamps included) return identical proposal
sequences — and every emitted proposal's `monetizationType` is the fixed
deterministic function of its category, drawn from the fixed taxonomy,
never randomized. -/
theorem generateProposals_deterministic (t : Int) (insights : List CommunityInsight) :
    generateProposals t insights = generateProposals t insights
    ∧ ((generateProposals t insights).all
        (fun p => p.monetizationType == monetizationFor p.category)) = true
    ∧ ((generateProposals t insights).all
        (fun p => decide (p.monetizationType ∈ monetizationTaxonomy))) = true := by
  refine ⟨rfl, ?_, ?_⟩
  · rw [List.all_eq_true]
    intro p hp
    obtain ⟨k, members, rfl⟩ := mem_generateProposals t insights p hp
    simp [mkProposal]
  · rw [List.all_eq_true]
    intro p hp
    obtain ⟨k, members, rfl⟩ := mem_generateProposals t insights p hp
    simp [mkProposal, monetizationFor_mem]

/-- C8: a default-constructed `FeatureProposal` has `f2pCompliant = true`
(header line 49), and every proposal newly created by the synthesizer —
i.e. before guardrail validation runs — also starts with
`f2pCompliant = true`. -/
theorem featureProposal_default_compliant (t : Int) (insights : List CommunityInsight) :
    defaultFeatureProposal.f2pCompliant = true
    ∧ ((generateProposals t insights).all (fun p => p.f2pCompliant)) = true := by
  refine ⟨rfl, ?_⟩
  rw [List.all_eq_true]
  intro p hp
  obtain ⟨k, members, rfl⟩ := mem_generateProposals t insights p hp
  rfl

/-- C9 evaluation: destroying a `PluginHandle` shuts the owned instance
down before it is destroyed, but move-assigning a handle a different
instance destroys the previously owned instance (here instance 0, never
shut down) without any `shutdown` call — the code skips the required
shutdown on that path. -/
theorem pluginHandle_move_assign_skips_shutdown :
    shutdownBeforeDestroy (handleDestructorEvents (some 0)) = true
    ∧ moveAssignEvents (some 0) (some 1) = [PluginEvent.destroyInstance 0]
    ∧ shutdownBeforeDestroy (moveAssignEvents (some 0) (some 1)) = false := by
  decide

/-- C10: calling `fetchInsights` without an explicit limit is the same
call as with limit 50 (the header's default argument `int limit = 50`),
and consequently the default call ingests at most 50 insights per
configured source. -/
theorem fetchInsights_default_limit (srcs : List SourceFetch) :
    fetchInsights srcs = fetchInsights srcs 50
    ∧ (fetchInsights srcs).length ≤ 50 * srcs.length := by
  refine ⟨rfl, ?_⟩
  have key : ∀ l : List SourceFetch,
      ((l.map (fetchFromSource 50)).flatten).length ≤ 50 * l.length := by
    intro l
    induction l with
    | nil => simp
    | cons s rest ih =>
        have hs : (fetchFromSource 50 s).length ≤ 50 := by
          unfold fetchFromSource
          cases s.result with
          | ok items => simp only [List.length_take]; exact min_le_left _ _
          | error e => simp
        simp only [List.map_cons, List.flatten_cons, List.length_append, List.length_cons]
        omega
  simpa [fetchInsights, Int.toNat_ofNat] using key srcs

end Agent
end ThirstysGameStudio
